import Mathlib

/-!
Shallow embedding of `src/app/d2-loadout-builder/LoadoutBuilder.tsx` (DIM's
Loadout Optimizer screen).  The component's data model, its Redux items
selector, its state-transition handlers, the `memoize-one` wrapper around the
external `computeSets` / `filterGeneratedSets` functions, the render flow with
its try/catch failure boundary, the stores-stream subscription handler, and
the mount/unmount subscription lifecycle are translated here.

Modelling conventions:
- JavaScript objects used as dictionaries (`items[classType][bucketHash][itemHash]`,
  the locked map) become association lists (`alGet` / `alSet`) so that key
  presence and insertion semantics match JS property semantics.
- Functions that can throw return `Except JsErr`; a JS `TypeError` caused by a
  property access on `undefined` (a failed non-null assertion `!`) makes the
  surrounding model function return `none`.
- The external solver functions `computeSets` and `filterGeneratedSets` are
  imported black boxes; they are parameters of the render model (`RenderEnv`).
- `memoize-one` compares the new argument tuple against the latest recorded
  one with reference equality (`===`); reference equality is modelled as an
  abstract `refEq : α → α → Bool` which theorems assume sound
  (`refEq a b = true → a = b`), which holds of JS `===` on the value model.
- `setState` inside the stream subscription handler is modelled with React's
  documented batched semantics: reads of `this.state` during the handler
  observe the pre-handler state, and the enqueued partial updates are merged
  in order when the handler finishes.
-/

namespace DIM

/-- DestinyClass enum from bungie-api-ts (Titan = 0, Hunter = 1, Warlock = 2,
Unknown = 3). -/
inductive DestinyClass where
  | titan
  | hunter
  | warlock
  | unknown
  deriving DecidableEq, Repr

/-- The slice of `InventoryBucket` the component reads: `bucket.hash` and
`bucket.inArmor`. -/
structure BucketInfo where
  hash : Nat
  inArmor : Bool
  deriving DecidableEq, Repr

/-- The slice of `D2Item` the items selector reads: `isDestiny2()` (`isD2`),
the truthiness of `item.sockets` (`hasSockets`), `item.bucket`, `item.hash`
and `item.classType`. -/
structure D2Item where
  hash : Nat
  classType : DestinyClass
  isD2 : Bool
  hasSockets : Bool
  bucket : BucketInfo
  deriving DecidableEq, Repr

/-- The slice of `DimStore` the component reads: `id`, `current`, `classType`
and `items`.  An entry `none` in `items` models a null/undefined array slot
(the selector guards with `!item`). -/
structure DimStore where
  id : String
  current : Bool
  classType : DestinyClass
  items : List (Option D2Item)
  deriving DecidableEq, Repr

/-- Association-list lookup, the model of reading a JS object property:
returns `none` when the key is absent. -/
def alGet {κ β : Type} [DecidableEq κ] : List (κ × β) → κ → Option β
  | [], _ => none
  | (k₀, v₀) :: rest, k => if k = k₀ then some v₀ else alGet rest k

/-- Association-list update, the model of writing a JS object property:
overwrites in place when the key is present, appends otherwise. -/
def alSet {κ β : Type} [DecidableEq κ] : List (κ × β) → κ → β → List (κ × β)
  | [], k, v => [(k, v)]
  | (k₀, v₀) :: rest, k, v =>
    if k = k₀ then (k₀, v) :: rest else (k₀, v₀) :: alSet rest k v

/-- Lookup with a default, modelling `obj[k]` after an
`if (!obj[k]) obj[k] = d` guard. -/
def alGetD {κ β : Type} [DecidableEq κ] (m : List (κ × β)) (k : κ) (d : β) : β :=
  (alGet m k).getD d

/-- The nested dictionary produced by the items selector:
classType → bucketHash → itemHash → item list. -/
abbrev ItemGroups := List (DestinyClass × List (Nat × List (Nat × List D2Item)))

instance : DecidableEq (List (Nat × List D2Item)) := inferInstance

instance : DecidableEq (List (Nat × List (Nat × List D2Item))) := inferInstance

instance : DecidableEq ItemGroups := inferInstance

/-- Reads `items[c][b][h]`, with `[]` for any missing level. -/
def groupsGet (g : ItemGroups) (c : DestinyClass) (b h : Nat) : List D2Item :=
  alGetD (alGetD (alGetD g c []) b []) h []

/-- The `!items[store.classType]` key-presence test in `render`. -/
def groupsHasClass (g : ItemGroups) (c : DestinyClass) : Bool :=
  (alGet g c).isSome

/-- The filter in the items selector: the item is kept when it is a Destiny 2
item, has sockets, and sits in an armor bucket or the Ghost bucket
(hash 4023194814).  This is the negation of the `continue` condition. -/
def includeItem (it : D2Item) : Bool :=
  it.isD2 && it.hasSockets && (it.bucket.inArmor || it.bucket.hash == 4023194814)

/-- The class groups an item is filed under: all three playable classes when
its class type is Unknown, otherwise just its own class. -/
def itemClasses (it : D2Item) : List DestinyClass :=
  if it.classType = DestinyClass.unknown then
    [DestinyClass.hunter, DestinyClass.titan, DestinyClass.warlock]
  else
    [it.classType]

/-- One insertion `items[classType][item.bucket.hash][item.hash].push(item)`,
with the three `if (!...) ... = empty` initialisations folded into
default-reads. -/
def insertItem (g : ItemGroups) (c : DestinyClass) (it : D2Item) : ItemGroups :=
  let byBucket := alGetD g c []
  let byHash := alGetD byBucket it.bucket.hash []
  let lst := alGetD byHash it.hash []
  alSet g c (alSet byBucket it.bucket.hash (alSet byHash it.hash (lst ++ [it])))

/-- The body of the inner loop of the items selector for one array slot. -/
def processItem (g : ItemGroups) (oit : Option D2Item) : ItemGroups :=
  match oit with
  | none => g
  | some it =>
    if includeItem it then (itemClasses it).foldl (fun acc c => insertItem acc c it) g
    else g

/-- The memoized items selector of `mapStateToProps`: groups every kept item
of every store by class, bucket hash and item hash. -/
def itemsSelector (stores : List DimStore) : ItemGroups :=
  stores.foldl (fun acc st => st.items.foldl processItem acc) []

/-- An inclusive numeric stat range, `MinMax` from `./types`. -/
structure MinMax where
  min : Nat
  max : Nat
  deriving DecidableEq, Repr

/-- The three stat types of `StatTypes` from `./types`. -/
inductive StatTypes where
  | Mobility
  | Resilience
  | Recovery
  deriving DecidableEq, Repr

/-- The `statFilters` record, one `MinMax` per stat type. -/
structure StatFiltersS where
  Mobility : MinMax
  Resilience : MinMax
  Recovery : MinMax
  deriving DecidableEq, Repr

/-- A locked item/perk constraint descriptor (`LockedItemType` from
`./types`); opaque to this file, so modelled as a token. -/
structure LockedItemType where
  tag : Nat
  deriving DecidableEq, Repr

/-- The locked map, bucket hash → list of locked constraints. -/
abbrev LockedMap := List (Nat × List LockedItemType)

/-- An `ArmorSet` result from the external solver; opaque to this file, so
modelled as a token. -/
structure ArmorSet where
  tok : Nat
  deriving DecidableEq, Repr

/-- The compiled search filter predicate `filters.filterFunction(query)`;
opaque to this file (it is only forwarded to `computeSets`), so modelled as a
token. -/
structure FilterArg where
  tok : Nat
  deriving DecidableEq, Repr

/-- A thrown JS error, of which the component only reads `.message`. -/
structure JsErr where
  message : String
  deriving DecidableEq, Repr

/-- The component's `State`. -/
structure BState where
  requirePerks : Bool
  lockedMap : LockedMap
  selectedStore : Option DimStore
  statFilters : StatFiltersS
  minimumPower : Nat
  query : String
  statOrder : List StatTypes
  deriving DecidableEq, Repr

/-- The props the render path reads (`searchConfig` only feeds a child input
box and is omitted; `defs` is an opaque manifest handle, present or not). -/
structure PropsS where
  storesLoaded : Bool
  stores : List DimStore
  isPhonePortrait : Bool
  items : ItemGroups
  defs : Option Nat
  filters : String → FilterArg

/-- The default stat filters written by the constructor and by
`onCharacterChanged`. -/
def defaultStatFilters : StatFiltersS :=
  { Mobility := { min := 0, max := 10 }
    Resilience := { min := 0, max := 10 }
    Recovery := { min := 0, max := 10 } }

/-- The state installed by the constructor. -/
def initialState : BState :=
  { requirePerks := true
    lockedMap := []
    selectedStore := none
    statFilters := defaultStatFilters
    minimumPower := 0
    query := ""
    statOrder := [StatTypes.Resilience, StatTypes.Recovery, StatTypes.Mobility] }

/-- The `onCharacterChanged` handler: looks the store up by id in
`this.props.stores` and resets locked map, perk requirement, stat filters and
minimum power.  The non-null assertion on `find` has no runtime effect, so a
missing id simply stores `none`. -/
def onCharacterChanged (propsStores : List DimStore) (storeId : String)
    (s : BState) : BState :=
  { s with
    selectedStore := propsStores.find? (fun t => t.id == storeId)
    lockedMap := []
    requirePerks := true
    statFilters := defaultStatFilters
    minimumPower := 0 }

/-- The `setRequiredPerks` click handler. -/
def setRequiredPerks (s : BState) : BState :=
  { s with requirePerks := false }

/-- The `onQueryChanged` handler. -/
def onQueryChanged (query : String) (s : BState) : BState :=
  { s with query := query }

/-- The `onStatOrderChanged` handler. -/
def onStatOrderChanged (statOrder : List StatTypes) (s : BState) : BState :=
  { s with statOrder := statOrder }

/-- The `onStatFiltersChanged` handler. -/
def onStatFiltersChanged (statFilters : StatFiltersS) (s : BState) : BState :=
  { s with statFilters := statFilters }

/-- The `onMinimumPowerChanged` handler. -/
def onMinimumPowerChanged (minimumPower : Nat) (s : BState) : BState :=
  { s with minimumPower := minimumPower }

/-- The `onLockedMapChanged` handler. -/
def onLockedMapChanged (lockedMap : LockedMap) (s : BState) : BState :=
  { s with lockedMap := lockedMap }

/-- The `updateLockedArmor` handler, a spread that sets one bucket's entry. -/
def updateLockedArmor (bucketHash : Nat) (locked : List LockedItemType)
    (s : BState) : BState :=
  { s with lockedMap := alSet s.lockedMap bucketHash locked }

/-- One call through a `memoize-one` wrapper with memo state `c` (the latest
recorded argument/result pair).  Returns the call result, the new memo state
and whether the underlying function was invoked.  Matching the library: a hit
returns the recorded result without invoking; a miss invokes, and records the
pair only when the call returns normally — a throw leaves the memo state
untouched. -/
def memoOneCall {α β ε : Type} (f : α → Except ε β) (refEq : α → α → Bool)
    (c : Option (α × β)) (a : α) : Except ε β × Option (α × β) × Bool :=
  match c with
  | some (a₀, r₀) =>
    if refEq a a₀ then (Except.ok r₀, c, false)
    else
      match f a with
      | Except.ok r => (Except.ok r, some (a, r), true)
      | Except.error e => (Except.error e, c, true)
  | none =>
    match f a with
    | Except.ok r => (Except.ok r, some (a, r), true)
    | Except.error e => (Except.error e, none, true)

/-- The argument tuple of `computeSets` as called from `render`. -/
structure ComputeArgs where
  items : ItemGroups
  classType : DestinyClass
  requirePerks : Bool
  lockedMap : LockedMap
  filter : FilterArg
  deriving DecidableEq

/-- The argument tuple of `filterGeneratedSets` as called from `render`. -/
structure FilterArgs where
  sets : List ArmorSet
  minimumPower : Nat
  lockedMap : LockedMap
  statFilters : StatFiltersS
  statOrder : List StatTypes
  deriving DecidableEq

/-- The external collaborators of the render path: the two imported solver
functions (which may throw) and the reference-equality tests `memoize-one`
uses on their argument tuples. -/
structure RenderEnv where
  computeSets : ComputeArgs → Except JsErr (List ArmorSet)
  filterGeneratedSets : FilterArgs → Except JsErr (List ArmorSet)
  refEqC : ComputeArgs → ComputeArgs → Bool
  refEqF : FilterArgs → FilterArgs → Bool

/-- The values of the locals of render's try/catch block together with the
memo states and invocation records of the two memoized calls. -/
structure TryResult where
  processedSets : List ArmorSet
  filteredSets : List ArmorSet
  processError : Option JsErr
  cacheCompute : Option (ComputeArgs × List ArmorSet)
  cacheFilter : Option (FilterArgs × List ArmorSet)
  invokedCompute : Bool
  invokedFilter : Bool
  deriving DecidableEq

/-- The try/catch block of `render`: `processedSets` and `filteredSets` start
as `[]`; `computeSetsMemoized` runs first, then `filterSetsMemoized` on its
output; the first throw is caught and recorded in `processError`, leaving the
locals assigned so far. -/
def tryComputeSets (env : RenderEnv) (ca : ComputeArgs) (mp : Nat)
    (lm : LockedMap) (sf : StatFiltersS) (so : List StatTypes)
    (cc : Option (ComputeArgs × List ArmorSet))
    (cf : Option (FilterArgs × List ArmorSet)) : TryResult :=
  let m₁ := memoOneCall env.computeSets env.refEqC cc ca
  match m₁.1 with
  | Except.error e =>
    { processedSets := []
      filteredSets := []
      processError := some e
      cacheCompute := m₁.2.1
      cacheFilter := cf
      invokedCompute := m₁.2.2
      invokedFilter := false }
  | Except.ok ps =>
    let m₂ := memoOneCall env.filterGeneratedSets env.refEqF cf
      { sets := ps, minimumPower := mp, lockedMap := lm,
        statFilters := sf, statOrder := so }
    match m₂.1 with
    | Except.error e =>
      { processedSets := ps
        filteredSets := []
        processError := some e
        cacheCompute := m₁.2.1
        cacheFilter := m₂.2.1
        invokedCompute := m₁.2.2
        invokedFilter := m₂.2.2 }
    | Except.ok fs =>
      { processedSets := ps
        filteredSets := fs
        processError := none
        cacheCompute := m₁.2.1
        cacheFilter := m₂.2.1
        invokedCompute := m₁.2.2
        invokedFilter := m₂.2.2 }

/-- What `PageWithMenu.Contents` shows (or the whole-screen Loading state). -/
inductive ContentsView where
  | loading
  | errorPanel (message : String)
  | noBuilds
  | generatedSets (sets : List ArmorSet) (lockedMap : LockedMap)
      (statOrder : List StatTypes)
  deriving DecidableEq

/-- The observable outcome of one `render`: the contents area, the `sets`
prop handed to the `FilterBuilds` menu child (`none` while loading), the
`console.error` log, the memo states after the render and the invocation
records. -/
structure RenderResult where
  view : ContentsView
  menuSets : Option (List ArmorSet)
  logged : Option String
  cacheCompute : Option (ComputeArgs × List ArmorSet)
  cacheFilter : Option (FilterArgs × List ArmorSet)
  invokedCompute : Bool
  invokedFilter : Bool
  deriving DecidableEq

/-- The store resolution at the top of `render`: the selected store, or the
account's current store. -/
def resolveStore (p : PropsS) (s : BState) : Option DimStore :=
  match s.selectedStore with
  | some st => some st
  | none => p.stores.find? (fun t => t.current)

/-- The argument tuple `render` hands to `computeSetsMemoized`:
`(items, store.classType, requirePerks, lockedMap, filter)` with
`filter = filters.filterFunction(query)`. -/
def renderComputeArgs (p : PropsS) (s : BState) (store : DimStore) : ComputeArgs :=
  { items := p.items
    classType := store.classType
    requirePerks := s.requirePerks
    lockedMap := s.lockedMap
    filter := p.filters s.query }

/-- The try/catch block of `render` with its arguments as `render` builds
them. -/
def renderTry (env : RenderEnv) (p : PropsS) (s : BState) (store : DimStore)
    (cc : Option (ComputeArgs × List ArmorSet))
    (cf : Option (FilterArgs × List ArmorSet)) : TryResult :=
  tryComputeSets env (renderComputeArgs p s store)
    s.minimumPower s.lockedMap s.statFilters s.statOrder cc cf

/-- The `render` method.  Returns `none` when the JS code would throw a
`TypeError` (`stores.find(...)` found no current store and `.classType` is
read off `undefined`).  `cc` and `cf` are the memo states of
`computeSetsMemoized` and `filterSetsMemoized` entering the render. -/
def renderLB (env : RenderEnv) (p : PropsS) (s : BState)
    (cc : Option (ComputeArgs × List ArmorSet))
    (cf : Option (FilterArgs × List ArmorSet)) : Option RenderResult :=
  if !p.storesLoaded || p.defs.isNone then
    some { view := ContentsView.loading, menuSets := none, logged := none,
           cacheCompute := cc, cacheFilter := cf,
           invokedCompute := false, invokedFilter := false }
  else
    match resolveStore p s with
    | none => none
    | some store =>
      if !groupsHasClass p.items store.classType then
        some { view := ContentsView.loading, menuSets := none, logged := none,
               cacheCompute := cc, cacheFilter := cf,
               invokedCompute := false, invokedFilter := false }
      else
        let tr := renderTry env p s store cc cf
        some { view :=
                 match tr.processError with
                 | some e => ContentsView.errorPanel e.message
                 | none =>
                   if tr.processedSets.isEmpty && s.requirePerks then
                     ContentsView.noBuilds
                   else
                     ContentsView.generatedSets tr.filteredSets s.lockedMap
                       s.statOrder
               menuSets := some tr.processedSets
               logged := Option.map (fun e => e.message) tr.processError
               cacheCompute := tr.cacheCompute
               cacheFilter := tr.cacheFilter
               invokedCompute := tr.invokedCompute
               invokedFilter := tr.invokedFilter }

/-- The subscription callback installed by `componentDidMount`, under batched
`setState` semantics (reads of `this.state` observe the pre-handler state,
updates merge in order at the end).  Returns `none` when the JS code would
throw (`stores.find((s) => s.current)!.id` with no current store while
nothing is selected yet). -/
def storesStreamHandler (propsStores : List DimStore) (s : BState)
    (snapshot : Option (List DimStore)) : Option BState :=
  match snapshot with
  | none => some s
  | some stores =>
    let u1 : BState := { s with selectedStore := stores.find? (fun t => t.current) }
    match s.selectedStore with
    | none =>
      match stores.find? (fun t => t.current) with
      | none => none
      | some cur => some (onCharacterChanged propsStores cur.id u1)
    | some prev =>
      some { u1 with selectedStore := stores.find? (fun t => t.id == prev.id) }

/-- The world of live stream subscriptions: a fresh-id supply and the ids of
the currently active subscriptions. -/
structure SubWorld where
  nextId : Nat
  active : List Nat
  deriving DecidableEq, Repr

/-- Acquiring a subscription from `getStoresStream(...).subscribe(...)`. -/
def subscribeStream (w : SubWorld) : Nat × SubWorld :=
  (w.nextId, { nextId := w.nextId + 1, active := w.nextId :: w.active })

/-- Releasing a subscription with `unsubscribe()`. -/
def unsubscribeStream (w : SubWorld) (i : Nat) : SubWorld :=
  { w with active := w.active.erase i }

/-- Subscription effect of `componentDidMount`: acquires the single stream
subscription and stores it in `this.storesSubscription`. -/
def componentDidMountSub (w : SubWorld) : Nat × SubWorld :=
  subscribeStream w

/-- Subscription effect of `componentWillUnmount`: unconditionally
unsubscribes the stored subscription (the method's only statement). -/
def componentWillUnmountSub (sub : Nat) (w : SubWorld) : SubWorld :=
  unsubscribeStream w sub

/-- Well-formedness of the subscription world: every active id was issued. -/
abbrev wfWorld (w : SubWorld) : Prop :=
  ∀ i ∈ w.active, i < w.nextId

/-- One full mount/unmount lifecycle of the component. -/
def mountUnmountCycle (w : SubWorld) : SubWorld :=
  componentWillUnmountSub (componentDidMountSub w).1 (componentDidMountSub w).2

/-- Iterated mount/unmount lifecycles. -/
def lifecycleIter : Nat → SubWorld → SubWorld
  | 0, w => w
  | n + 1, w => lifecycleIter n (mountUnmountCycle w)

/-- Well-formedness of a stat range per the spec: inclusive bounds within
0–10 with min ≤ max. -/
abbrev rangeOK (m : MinMax) : Prop :=
  m.min ≤ m.max ∧ m.max ≤ 10

/-- Well-formedness of the stat filters record. -/
abbrev statFiltersOK (sf : StatFiltersS) : Prop :=
  rangeOK sf.Mobility ∧ rangeOK sf.Resilience ∧ rangeOK sf.Recovery

/-- The stat priority order is a duplicate-free permutation of the fixed stat
set. -/
abbrev statOrderOK (l : List StatTypes) : Prop :=
  l.Nodup ∧ StatTypes.Mobility ∈ l ∧ StatTypes.Resilience ∈ l ∧
    StatTypes.Recovery ∈ l

/-! Association-list lemmas and the items selector, claim C9. -/

theorem alGet_alSet {κ β : Type} [DecidableEq κ] (m : List (κ × β))
    (k k' : κ) (v : β) :
    alGet (alSet m k v) k' = if k' = k then some v else alGet m k' := by
  induction m with
  | nil => simp [alSet, alGet]
  | cons hd tl ih =>
    obtain ⟨k₀, v₀⟩ := hd
    by_cases h1 : k = k₀
    · subst h1
      by_cases h2 : k' = k
      · subst h2
        simp [alSet, alGet]
      · simp [alSet, alGet, h2]
    · by_cases h2 : k' = k₀
      · subst h2
        have h3 : ¬k' = k := fun hh => h1 hh.symm
        simp [alSet, alGet, h1, h3]
      · simp [alSet, alGet, h1, h2, ih]

theorem groupsGet_insertItem (g : ItemGroups) (c : DestinyClass) (it : D2Item)
    (c' : DestinyClass) (b h : Nat) :
    groupsGet (insertItem g c it) c' b h =
      if c' = c ∧ b = it.bucket.hash ∧ h = it.hash then
        groupsGet g c' b h ++ [it]
      else groupsGet g c' b h := by
  unfold insertItem groupsGet
  by_cases h1 : c' = c
  · subst h1
    by_cases h2 : b = it.bucket.hash
    · subst h2
      by_cases h3 : h = it.hash
      · subst h3
        simp [alGetD, alGet_alSet]
      · simp [alGetD, alGet_alSet, h3]
    · simp [alGetD, alGet_alSet, h2]
  · simp [alGetD, alGet_alSet, h1]

theorem mem_groupsGet_insertItem (g : ItemGroups) (c : DestinyClass)
    (it x : D2Item) (c' : DestinyClass) (b h : Nat) :
    x ∈ groupsGet (insertItem g c it) c' b h ↔
      x ∈ groupsGet g c' b h ∨
        (x = it ∧ c' = c ∧ b = it.bucket.hash ∧ h = it.hash) := by
  rw [groupsGet_insertItem]
  split
  case isTrue hcond => simp [hcond, or_comm]
  case isFalse hcond => simp [hcond]

theorem mem_groupsGet_foldl_classes (cs : List DestinyClass) (g : ItemGroups)
    (it x : D2Item) (c : DestinyClass) (b h : Nat) :
    x ∈ groupsGet (cs.foldl (fun acc c₀ => insertItem acc c₀ it) g) c b h ↔
      x ∈ groupsGet g c b h ∨
        (x = it ∧ c ∈ cs ∧ b = it.bucket.hash ∧ h = it.hash) := by
  induction cs generalizing g with
  | nil => simp
  | cons hd tl ih =>
    rw [List.foldl_cons, ih, mem_groupsGet_insertItem]
    constructor
    · rintro ((hm | ⟨hx, hc, hb, hh⟩) | ⟨hx, hc, hb, hh⟩)
      · exact Or.inl hm
      · exact Or.inr ⟨hx, by rw [hc]; exact List.mem_cons_self _ _, hb, hh⟩
      · exact Or.inr ⟨hx, List.mem_cons_of_mem _ hc, hb, hh⟩
    · rintro (hm | ⟨hx, hc, hb, hh⟩)
      · exact Or.inl (Or.inl hm)
      · rcases List.mem_cons.mp hc with he | hm2
        · exact Or.inl (Or.inr ⟨hx, he, hb, hh⟩)
        · exact Or.inr ⟨hx, hm2, hb, hh⟩

theorem mem_groupsGet_processItem (g : ItemGroups) (oit : Option D2Item)
    (x : D2Item) (c : DestinyClass) (b h : Nat) :
    x ∈ groupsGet (processItem g oit) c b h ↔
      x ∈ groupsGet g c b h ∨
        (oit = some x ∧ includeItem x = true ∧ c ∈ itemClasses x ∧
          b = x.bucket.hash ∧ h = x.hash) := by
  cases oit with
  | none => simp [processItem]
  | some it =>
    simp only [processItem]
    by_cases hinc : includeItem it = true
    · rw [if_pos hinc, mem_groupsGet_foldl_classes]
      constructor
      · rintro (hm | ⟨rfl, hc, hb, hh⟩)
        · exact Or.inl hm
        · exact Or.inr ⟨rfl, hinc, hc, hb, hh⟩
      · rintro (hm | ⟨heq, hincx, hc, hb, hh⟩)
        · exact Or.inl hm
        · obtain rfl : it = x := Option.some.inj heq
          exact Or.inr ⟨rfl, hc, hb, hh⟩
    · rw [if_neg hinc]
      constructor
      · exact Or.inl
      · rintro (hm | ⟨heq, hincx, _, _, _⟩)
        · exact hm
        · obtain rfl : it = x := Option.some.inj heq
          exact absurd hincx hinc

theorem mem_groupsGet_foldl_items (its : List (Option D2Item))
    (g : ItemGroups) (x : D2Item) (c : DestinyClass) (b h : Nat) :
    x ∈ groupsGet (its.foldl processItem g) c b h ↔
      x ∈ groupsGet g c b h ∨
        (some x ∈ its ∧ includeItem x = true ∧ c ∈ itemClasses x ∧
          b = x.bucket.hash ∧ h = x.hash) := by
  induction its generalizing g with
  | nil => simp
  | cons hd tl ih =>
    rw [List.foldl_cons, ih, mem_groupsGet_processItem]
    constructor
    · rintro ((hm | ⟨he, hP⟩) | ⟨hm, hP⟩)
      · exact Or.inl hm
      · subst he
        exact Or.inr ⟨List.mem_cons_self _ _, hP⟩
      · exact Or.inr ⟨List.mem_cons_of_mem _ hm, hP⟩
    · rintro (hm | ⟨hmem, hP⟩)
      · exact Or.inl (Or.inl hm)
      · rcases List.mem_cons.mp hmem with he | hm2
        · exact Or.inl (Or.inr ⟨he.symm, hP⟩)
        · exact Or.inr ⟨hm2, hP⟩

theorem mem_groupsGet_foldl_stores (stores : List DimStore) (g : ItemGroups)
    (x : D2Item) (c : DestinyClass) (b h : Nat) :
    x ∈ groupsGet
        (stores.foldl (fun acc st => st.items.foldl processItem acc) g) c b h ↔
      x ∈ groupsGet g c b h ∨
        ∃ st ∈ stores, some x ∈ st.items ∧ includeItem x = true ∧
          c ∈ itemClasses x ∧ b = x.bucket.hash ∧ h = x.hash := by
  induction stores generalizing g with
  | nil => simp
  | cons hd tl ih =>
    rw [List.foldl_cons, ih, mem_groupsGet_foldl_items]
    constructor
    · rintro ((hm | hP) | ⟨st, hst, hP⟩)
      · exact Or.inl hm
      · exact Or.inr ⟨hd, List.mem_cons_self _ _, hP⟩
      · exact Or.inr ⟨st, List.mem_cons_of_mem _ hst, hP⟩
    · rintro (hm | ⟨st, hst, hP⟩)
      · exact Or.inl (Or.inl hm)
      · rcases List.mem_cons.mp hst with he | hm2
        · subst he
          exact Or.inl (Or.inr hP)
        · exact Or.inr ⟨st, hm2, hP⟩

/-- Membership characterisation of the items selector output. -/
theorem mem_itemsSelector (stores : List DimStore) (x : D2Item)
    (c : DestinyClass) (b h : Nat) :
    x ∈ groupsGet (itemsSelector stores) c b h ↔
      ∃ st ∈ stores, some x ∈ st.items ∧ includeItem x = true ∧
        c ∈ itemClasses x ∧ b = x.bucket.hash ∧ h = x.hash := by
  unfold itemsSelector
  rw [mem_groupsGet_foldl_stores]
  have hnil : groupsGet ([] : ItemGroups) c b h = [] := rfl
  rw [hnil]
  simp

/-- C9: the items selector includes an item only if it is a Destiny 2 item
with sockets sitting in an armor bucket or the Ghost bucket; it files an
Unknown-class item under all three playable classes and any other item only
under its own class, keyed by bucket hash then item hash. -/
theorem c9_items_selector_grouping (stores : List DimStore) :
    (∀ x c b h, x ∈ groupsGet (itemsSelector stores) c b h →
      x.isD2 = true ∧ x.hasSockets = true ∧
      (x.bucket.inArmor = true ∨ x.bucket.hash = 4023194814) ∧
      b = x.bucket.hash ∧ h = x.hash ∧
      (x.classType = DestinyClass.unknown →
        x ∈ groupsGet (itemsSelector stores) DestinyClass.hunter b h ∧
        x ∈ groupsGet (itemsSelector stores) DestinyClass.titan b h ∧
        x ∈ groupsGet (itemsSelector stores) DestinyClass.warlock b h) ∧
      (x.classType ≠ DestinyClass.unknown → c = x.classType)) ∧
    (∀ st ∈ stores, ∀ x, some x ∈ st.items → includeItem x = true →
      ∀ c ∈ itemClasses x,
        x ∈ groupsGet (itemsSelector stores) c x.bucket.hash x.hash) := by
  constructor
  · intro x c b h hm
    rw [mem_itemsSelector] at hm
    obtain ⟨st, hst, hit, hinc, hcls, hb, hh⟩ := hm
    have hflags := hinc
    rw [includeItem] at hflags
    simp only [Bool.and_eq_true, Bool.or_eq_true, beq_iff_eq] at hflags
    obtain ⟨⟨hd2, hsock⟩, harm⟩ := hflags
    refine ⟨hd2, hsock, harm, hb, hh, ?_, ?_⟩
    · intro hu
      refine ⟨?_, ?_, ?_⟩ <;>
        · rw [mem_itemsSelector]
          exact ⟨st, hst, hit, hinc, by simp [itemClasses, hu], hb, hh⟩
    · intro hnu
      unfold itemClasses at hcls
      rw [if_neg hnu] at hcls
      simpa using hcls
  · intro st hst x hit hinc c hcls
    rw [mem_itemsSelector]
    exact ⟨st, hst, hit, hinc, hcls, rfl, rfl⟩

theorem c9_witness :
    (⟨100, DestinyClass.titan, true, true, ⟨10, true⟩⟩ : D2Item) ∈
      groupsGet
        (itemsSelector
          [⟨"s", true, DestinyClass.titan,
            [some ⟨100, DestinyClass.titan, true, true, ⟨10, true⟩⟩]⟩])
        DestinyClass.titan 10 100 :=
  (c9_items_selector_grouping
      [⟨"s", true, DestinyClass.titan,
        [some ⟨100, DestinyClass.titan, true, true, ⟨10, true⟩⟩]⟩]).2
    ⟨"s", true, DestinyClass.titan,
      [some ⟨100, DestinyClass.titan, true, true, ⟨10, true⟩⟩]⟩
    (by decide)
    ⟨100, DestinyClass.titan, true, true, ⟨10, true⟩⟩
    (by decide) (by decide) DestinyClass.titan (by decide)

/-! Helper lemmas about the memoize-one model, claim C4. -/

theorem memoOneCall_fst {α β ε : Type} (f : α → Except ε β) (r : α → α → Bool)
    (c : Option (α × β)) (a : α)
    (hr : ∀ x y, r x y = true → x = y)
    (hc : ∀ a₀ r₀, c = some (a₀, r₀) → f a₀ = Except.ok r₀) :
    (memoOneCall f r c a).1 = f a := by
  cases c with
  | none =>
    simp only [memoOneCall]
    cases h : f a <;> simp [h]
  | some p =>
    obtain ⟨a₀, r₀⟩ := p
    by_cases hre : r a a₀ = true
    · have ha : a = a₀ := hr _ _ hre
      subst ha
      simp [memoOneCall, hre, hc a r₀ rfl]
    · rw [Bool.not_eq_true] at hre
      simp only [memoOneCall, hre]
      cases h : f a <;> simp [h]

theorem memoOneCall_invoked_iff {α β ε : Type} (f : α → Except ε β)
    (r : α → α → Bool) (c : Option (α × β)) (a : α) :
    (memoOneCall f r c a).2.2 = false ↔
      ∃ a₀ r₀, c = some (a₀, r₀) ∧ r a a₀ = true := by
  cases c with
  | none =>
    simp only [memoOneCall]
    cases h : f a <;> simp
  | some p =>
    obtain ⟨a₀, r₀⟩ := p
    by_cases hre : r a a₀ = true
    · simp [memoOneCall, hre]
    · rw [Bool.not_eq_true] at hre
      simp only [memoOneCall, hre]
      cases h : f a <;> simp [hre]

theorem memoOneCall_error_state {α β ε : Type} (f : α → Except ε β)
    (r : α → α → Bool) (c : Option (α × β)) (a : α) (e : ε)
    (h : (memoOneCall f r c a).1 = Except.error e) :
    (memoOneCall f r c a).2.1 = c ∧ (memoOneCall f r c a).2.2 = true := by
  cases c with
  | none =>
    simp only [memoOneCall] at h ⊢
    cases hf : f a <;> simp [hf] at h ⊢
  | some p =>
    obtain ⟨a₀, r₀⟩ := p
    by_cases hre : r a a₀ = true
    · simp [memoOneCall, hre] at h
    · rw [Bool.not_eq_true] at hre
      simp only [memoOneCall, hre] at h ⊢
      cases hf : f a <;> simp [hf] at h ⊢

/-- C4: the memoized wrappers return exactly what the underlying function
would return (given that the recorded memo entry is coherent with the
function and that reference equality entails value equality), and the
underlying function is skipped exactly when the argument is
reference-identical to the latest recorded argument tuple. -/
theorem c4_memoized_wrappers_extensional {α β ε : Type} (f : α → Except ε β)
    (r : α → α → Bool) (c : Option (α × β)) (a : α)
    (hr : ∀ x y, r x y = true → x = y)
    (hc : ∀ a₀ r₀, c = some (a₀, r₀) → f a₀ = Except.ok r₀) :
    (memoOneCall f r c a).1 = f a ∧
    ((memoOneCall f r c a).2.2 = false ↔
      ∃ a₀ r₀, c = some (a₀, r₀) ∧ r a a₀ = true) :=
  ⟨memoOneCall_fst f r c a hr hc, memoOneCall_invoked_iff f r c a⟩

theorem c4_witness :
    (memoOneCall (fun n : Nat => (Except.ok (n + 1) : Except String Nat))
        (fun x y => x == y) none 5).1 = Except.ok 6 ∧
    (memoOneCall (fun n : Nat => (Except.ok (n + 1) : Except String Nat))
        (fun x y => x == y) none 5).2.2 = true := by
  have h := c4_memoized_wrappers_extensional
    (fun n : Nat => (Except.ok (n + 1) : Except String Nat))
    (fun x y => x == y) none 5
    (fun x y hb => by simpa using hb)
    (fun a₀ r₀ hh => nomatch hh)
  exact ⟨h.1, rfl⟩

/-! Character change, claims C2, C10 and C8. -/

/-- C2: with the target id present in `props.stores`, `onCharacterChanged`
selects that store and resets the locked map to empty and every stat filter
to the inclusive default range 0–10. -/
theorem c2_character_change_resets (ps : List DimStore) (sid : String)
    (s : BState) (hex : ∃ t ∈ ps, t.id = sid) :
    (∃ t, (onCharacterChanged ps sid s).selectedStore = some t ∧
      t.id = sid ∧ t ∈ ps) ∧
    (onCharacterChanged ps sid s).lockedMap = [] ∧
    (onCharacterChanged ps sid s).statFilters.Mobility = { min := 0, max := 10 } ∧
    (onCharacterChanged ps sid s).statFilters.Resilience = { min := 0, max := 10 } ∧
    (onCharacterChanged ps sid s).statFilters.Recovery = { min := 0, max := 10 } := by
  refine ⟨?_, rfl, rfl, rfl, rfl⟩
  obtain ⟨t, htmem, htid⟩ := hex
  have hsome : (ps.find? (fun u => u.id == sid)).isSome := by
    rw [List.find?_isSome]
    exact ⟨t, htmem, by simp [htid]⟩
  obtain ⟨t', ht'⟩ := Option.isSome_iff_exists.mp hsome
  refine ⟨t', ht', ?_, List.mem_of_find?_eq_some ht'⟩
  have := List.find?_some ht'
  simpa using this

theorem c2_witness :
    (onCharacterChanged [⟨"a", true, DestinyClass.titan, []⟩] "a"
      initialState).lockedMap = [] ∧
    (onCharacterChanged [⟨"a", true, DestinyClass.titan, []⟩] "a"
      initialState).statFilters.Mobility = { min := 0, max := 10 } :=
  ⟨(c2_character_change_resets [⟨"a", true, DestinyClass.titan, []⟩] "a"
      initialState ⟨⟨"a", true, DestinyClass.titan, []⟩, by decide, rfl⟩).2.1,
   (c2_character_change_resets [⟨"a", true, DestinyClass.titan, []⟩] "a"
      initialState ⟨⟨"a", true, DestinyClass.titan, []⟩, by decide, rfl⟩).2.2.1⟩

/-- C10: `onCharacterChanged` leaves `query` and `statOrder` unchanged; the
only fields it writes are `selectedStore`, `lockedMap`, `requirePerks`,
`statFilters` and `minimumPower`. -/
theorem c10_character_change_frame (ps : List DimStore) (sid : String)
    (s : BState) :
    (onCharacterChanged ps sid s).query = s.query ∧
    (onCharacterChanged ps sid s).statOrder = s.statOrder ∧
    onCharacterChanged ps sid s =
      { s with
        selectedStore := ps.find? (fun t => t.id == sid)
        lockedMap := []
        requirePerks := true
        statFilters := defaultStatFilters
        minimumPower := 0 } :=
  ⟨rfl, rfl, rfl⟩

/-- C8: the initial state has well-formed stat ranges and a duplicate-free
permutation as its stat order, and a character change preserves that
invariant (it resets the stat filters to the well-formed defaults and leaves
the stat order untouched). -/
theorem c8_state_invariants :
    (statFiltersOK initialState.statFilters ∧
      statOrderOK initialState.statOrder) ∧
    ∀ (ps : List DimStore) (sid : String) (s : BState),
      statOrderOK s.statOrder →
      statFiltersOK (onCharacterChanged ps sid s).statFilters ∧
      statOrderOK (onCharacterChanged ps sid s).statOrder := by
  refine ⟨⟨by decide, by decide⟩, ?_⟩
  intro ps sid s h
  exact ⟨(by decide : statFiltersOK defaultStatFilters), h⟩

theorem c8_witness :
    statOrderOK initialState.statOrder ∧
    statFiltersOK (onCharacterChanged [] "x" initialState).statFilters :=
  ⟨by decide, (c8_state_invariants.2 [] "x" initialState (by decide)).1⟩

/-! Subscription lifecycle, claim C5. -/

theorem mountUnmountCycle_active (w : SubWorld) :
    (mountUnmountCycle w).active = w.active := by
  simp [mountUnmountCycle, componentDidMountSub, componentWillUnmountSub,
    subscribeStream, unsubscribeStream]

theorem lifecycleIter_active (n : Nat) (w : SubWorld) :
    (lifecycleIter n w).active = w.active := by
  induction n generalizing w with
  | zero => rfl
  | succ n ih => rw [lifecycleIter, ih, mountUnmountCycle_active]

/-- C5: mounting acquires exactly one fresh subscription (recorded in
`storesSubscription`), unmounting releases exactly that subscription, and
any number of mount/unmount lifecycles leaves the set of active
subscriptions as it was — no subscription leaks past teardown. -/
theorem c5_subscription_lifecycle (w : SubWorld) (h : wfWorld w) :
    (componentDidMountSub w).2.active = (componentDidMountSub w).1 :: w.active ∧
    (componentDidMountSub w).1 ∉ w.active ∧
    (componentWillUnmountSub (componentDidMountSub w).1
      (componentDidMountSub w).2).active = w.active ∧
    ∀ n, (lifecycleIter n w).active = w.active := by
  refine ⟨rfl, ?_, ?_, fun n => lifecycleIter_active n w⟩
  · intro hm
    exact absurd (h _ hm) (Nat.lt_irrefl _)
  · simp [componentDidMountSub, componentWillUnmountSub, subscribeStream,
      unsubscribeStream]

theorem c5_witness :
    wfWorld { nextId := 0, active := [] } ∧
    (lifecycleIter 2 { nextId := 0, active := [] }).active = [] :=
  ⟨by decide,
   (c5_subscription_lifecycle { nextId := 0, active := [] } (by decide)).2.2.2 2⟩

/-! Render failure boundary and data flow, claims C1, C6 and C7. -/

/-- Reduction of `renderLB` once the guards let it reach the try block. -/
theorem renderLB_reach (env : RenderEnv) (p : PropsS) (s : BState)
    (cc : Option (ComputeArgs × List ArmorSet))
    (cf : Option (FilterArgs × List ArmorSet)) (store : DimStore)
    (h1 : p.storesLoaded = true) (h2 : p.defs.isNone = false)
    (h3 : resolveStore p s = some store)
    (h4 : groupsHasClass p.items store.classType = true) :
    renderLB env p s cc cf = some
      { view :=
          match (renderTry env p s store cc cf).processError with
          | some e => ContentsView.errorPanel e.message
          | none =>
            if (renderTry env p s store cc cf).processedSets.isEmpty &&
                s.requirePerks then
              ContentsView.noBuilds
            else
              ContentsView.generatedSets
                (renderTry env p s store cc cf).filteredSets s.lockedMap
                s.statOrder
        menuSets := some (renderTry env p s store cc cf).processedSets
        logged := Option.map (fun e => e.message)
          (renderTry env p s store cc cf).processError
        cacheCompute := (renderTry env p s store cc cf).cacheCompute
        cacheFilter := (renderTry env p s store cc cf).cacheFilter
        invokedCompute := (renderTry env p s store cc cf).invokedCompute
        invokedFilter := (renderTry env p s store cc cf).invokedFilter } := by
  rw [renderLB, h1, h2, h3]
  simp [h4]

/-- C1: when `computeSets` or `filterGeneratedSets` throws during a render
that reaches the computation, the exception is caught, the error is logged
(`console.error`), and the contents area shows the error panel rather than
`GeneratedSets`; the render returns normally. -/
theorem c1_failure_boundary (env : RenderEnv) (p : PropsS) (s : BState)
    (cc : Option (ComputeArgs × List ArmorSet))
    (cf : Option (FilterArgs × List ArmorSet)) (store : DimStore) (e : JsErr)
    (h1 : p.storesLoaded = true) (h2 : p.defs.isNone = false)
    (h3 : resolveStore p s = some store)
    (h4 : groupsHasClass p.items store.classType = true)
    (h5 : (memoOneCall env.computeSets env.refEqC cc
            (renderComputeArgs p s store)).1 = Except.error e ∨
          ∃ ps, (memoOneCall env.computeSets env.refEqC cc
              (renderComputeArgs p s store)).1 = Except.ok ps ∧
            (memoOneCall env.filterGeneratedSets env.refEqF cf
              { sets := ps, minimumPower := s.minimumPower,
                lockedMap := s.lockedMap, statFilters := s.statFilters,
                statOrder := s.statOrder }).1 = Except.error e) :
    ∃ res, renderLB env p s cc cf = some res ∧
      res.view = ContentsView.errorPanel e.message ∧
      res.logged = some e.message ∧
      ∀ xs lm so, res.view ≠ ContentsView.generatedSets xs lm so := by
  have htr : (renderTry env p s store cc cf).processError = some e := by
    unfold renderTry tryComputeSets
    rcases h5 with h5 | ⟨ps, hok, herr⟩
    · simp [h5]
    · simp [hok, herr]
  rw [renderLB_reach env p s cc cf store h1 h2 h3 h4]
  refine ⟨_, rfl, ?_, ?_, ?_⟩
  · simp [htr]
  · simp [htr]
  · intro xs lm so
    simp [htr]

/-- C6: on a render that reaches the computation with coherent memo states
and sound reference equality, `computeSets` is applied to exactly
`(items, store.classType, requirePerks, lockedMap, filter)` and
`filterGeneratedSets` to exactly
`(that result, minimumPower, lockedMap, statFilters, statOrder)`, and the
filtered list is what `GeneratedSets` displays (unless the no-builds branch
replaces an empty result under `requirePerks`). -/
theorem c6_render_data_flow (env : RenderEnv) (p : PropsS) (s : BState)
    (cc : Option (ComputeArgs × List ArmorSet))
    (cf : Option (FilterArgs × List ArmorSet)) (store : DimStore)
    (ps fs : List ArmorSet)
    (h1 : p.storesLoaded = true) (h2 : p.defs.isNone = false)
    (h3 : resolveStore p s = some store)
    (h4 : groupsHasClass p.items store.classType = true)
    (hrc : ∀ x y, env.refEqC x y = true → x = y)
    (hrf : ∀ x y, env.refEqF x y = true → x = y)
    (hcc : ∀ a r, cc = some (a, r) → env.computeSets a = Except.ok r)
    (hcf : ∀ a r, cf = some (a, r) → env.filterGeneratedSets a = Except.ok r)
    (hps : env.computeSets (renderComputeArgs p s store) = Except.ok ps)
    (hfs : env.filterGeneratedSets
      { sets := ps, minimumPower := s.minimumPower, lockedMap := s.lockedMap,
        statFilters := s.statFilters, statOrder := s.statOrder } =
      Except.ok fs) :
    ∃ res, renderLB env p s cc cf = some res ∧
      res.menuSets = some ps ∧
      res.logged = none ∧
      ((ps.isEmpty && s.requirePerks) = false →
        res.view = ContentsView.generatedSets fs s.lockedMap s.statOrder) ∧
      ((ps.isEmpty && s.requirePerks) = true →
        res.view = ContentsView.noBuilds) := by
  have hm1 : (memoOneCall env.computeSets env.refEqC cc
      (renderComputeArgs p s store)).1 = Except.ok ps := by
    rw [memoOneCall_fst env.computeSets env.refEqC cc
      (renderComputeArgs p s store) hrc hcc, hps]
  have hm2 : (memoOneCall env.filterGeneratedSets env.refEqF cf
      { sets := ps, minimumPower := s.minimumPower, lockedMap := s.lockedMap,
        statFilters := s.statFilters, statOrder := s.statOrder }).1 =
      Except.ok fs := by
    rw [memoOneCall_fst env.filterGeneratedSets env.refEqF cf _ hrf hcf, hfs]
  have htrp : (renderTry env p s store cc cf).processedSets = ps := by
    unfold renderTry tryComputeSets
    simp [hm1, hm2]
  have htrf : (renderTry env p s store cc cf).filteredSets = fs := by
    unfold renderTry tryComputeSets
    simp [hm1, hm2]
  have htre : (renderTry env p s store cc cf).processError = none := by
    unfold renderTry tryComputeSets
    simp [hm1, hm2]
  rw [renderLB_reach env p s cc cf store h1 h2 h3 h4]
  refine ⟨_, rfl, ?_, ?_, ?_, ?_⟩
  · simp [htrp]
  · simp [htre]
  · intro hne
    simp [htre, htrp, htrf, hne]
  · intro hyes
    simp [htre, htrp, hyes]

/-- Witness scenario: one current Titan store whose class group is present in
the items dictionary, with everything loaded. -/
def wStore : DimStore := ⟨"w", true, DestinyClass.titan, []⟩

/-- Witness props for the render theorems. -/
def wProps : PropsS :=
  { storesLoaded := true
    stores := [wStore]
    isPhonePortrait := false
    items := [(DestinyClass.titan, [])]
    defs := some 0
    filters := fun _ => ⟨0⟩ }

/-- Witness environment whose computeSets always throws. -/
def c1Env : RenderEnv :=
  { computeSets := fun _ => Except.error { message := "boom" }
    filterGeneratedSets := fun a => Except.ok a.sets
    refEqC := fun x y => decide (x = y)
    refEqF := fun x y => decide (x = y) }

theorem c1_witness :
    (renderLB c1Env wProps initialState none none).map (fun r => r.view) =
      some (ContentsView.errorPanel "boom") ∧
    (renderLB c1Env wProps initialState none none).map (fun r => r.logged) =
      some (some "boom") := by
  obtain ⟨res, hr, hv, hl, -⟩ :=
    c1_failure_boundary c1Env wProps initialState none none wStore
      { message := "boom" } rfl rfl rfl rfl (Or.inl rfl)
  rw [hr]
  simp [hv, hl]

/-- Witness environment whose solver functions return fixed results. -/
def c6Env : RenderEnv :=
  { computeSets := fun _ => Except.ok [⟨1⟩]
    filterGeneratedSets := fun _ => Except.ok [⟨2⟩]
    refEqC := fun x y => decide (x = y)
    refEqF := fun x y => decide (x = y) }

theorem c6_witness :
    (renderLB c6Env wProps initialState none none).map (fun r => r.menuSets) =
      some (some [⟨1⟩]) ∧
    (renderLB c6Env wProps initialState none none).map (fun r => r.view) =
      some (ContentsView.generatedSets [⟨2⟩] [] initialState.statOrder) := by
  obtain ⟨res, hr, hm, hl, hv, -⟩ :=
    c6_render_data_flow c6Env wProps initialState none none wStore [⟨1⟩] [⟨2⟩]
      rfl rfl rfl rfl
      (fun x y h => of_decide_eq_true h)
      (fun x y h => of_decide_eq_true h)
      (fun a r hh => nomatch hh)
      (fun a r hh => nomatch hh)
      rfl rfl
  rw [hr]
  refine ⟨by simp [hm], by simp [hv rfl, initialState]⟩

/-- C7 amended: when the memoized computeSets call throws during a render,
the memo states are left exactly as they were (the failing arguments and the
error are not recorded), so rendering again with unchanged props, state and
memo states produces the identical outcome — computeSets is invoked again
(the failure is retried) and the error panel is shown again. -/
theorem c7_amended_retry_on_unchanged_inputs (env : RenderEnv) (p : PropsS)
    (s : BState) (cc : Option (ComputeArgs × List ArmorSet))
    (cf : Option (FilterArgs × List ArmorSet)) (store : DimStore) (e : JsErr)
    (h1 : p.storesLoaded = true) (h2 : p.defs.isNone = false)
    (h3 : resolveStore p s = some store)
    (h4 : groupsHasClass p.items store.classType = true)
    (h5 : (memoOneCall env.computeSets env.refEqC cc
      (renderComputeArgs p s store)).1 = Except.error e) :
    ∃ res, renderLB env p s cc cf = some res ∧
      res.view = ContentsView.errorPanel e.message ∧
      res.cacheCompute = cc ∧ res.cacheFilter = cf ∧
      res.invokedCompute = true ∧
      renderLB env p s res.cacheCompute res.cacheFilter = some res := by
  have hst := memoOneCall_error_state env.computeSets env.refEqC cc
    (renderComputeArgs p s store) e h5
  have htr_err : (renderTry env p s store cc cf).processError = some e := by
    unfold renderTry tryComputeSets
    simp [h5]
  have htr_cc : (renderTry env p s store cc cf).cacheCompute = cc := by
    unfold renderTry tryComputeSets
    simp [h5, hst.1]
  have htr_cf : (renderTry env p s store cc cf).cacheFilter = cf := by
    unfold renderTry tryComputeSets
    simp [h5]
  have htr_i : (renderTry env p s store cc cf).invokedCompute = true := by
    unfold renderTry tryComputeSets
    simp [h5, hst.2]
  rw [renderLB_reach env p s cc cf store h1 h2 h3 h4]
  refine ⟨_, rfl, ?_, ?_, ?_, ?_, ?_⟩
  · simp [htr_err]
  · simp [htr_cc]
  · simp [htr_cf]
  · simp [htr_i]
  · have hsame : renderLB env p s (renderTry env p s store cc cf).cacheCompute
        (renderTry env p s store cc cf).cacheFilter = renderLB env p s cc cf := by
      rw [htr_cc, htr_cf]
    show renderLB env p s (renderTry env p s store cc cf).cacheCompute
      (renderTry env p s store cc cf).cacheFilter = _
    rw [hsame]
    exact renderLB_reach env p s cc cf store h1 h2 h3 h4

/-- Counterexample scenario store for C7. -/
def c7Store : DimStore := ⟨"cx", true, DestinyClass.titan, []⟩

/-- Counterexample environment for C7: computeSets throws exactly when the
perk requirement is on. -/
def c7Env : RenderEnv :=
  { computeSets := fun a =>
      if a.requirePerks then Except.error { message := "boom" }
      else Except.ok [⟨1⟩]
    filterGeneratedSets := fun a => Except.ok a.sets
    refEqC := fun x y => decide (x = y)
    refEqF := fun x y => decide (x = y) }

/-- Counterexample props for C7. -/
def c7Props : PropsS :=
  { storesLoaded := true
    stores := [c7Store]
    isPhonePortrait := false
    items := [(DestinyClass.titan, [])]
    defs := some 0
    filters := fun _ => ⟨0⟩ }

/-- A state under which the C7 computeSets succeeds (perk requirement off). -/
def c7StateOk : BState := { initialState with requirePerks := false }

/-- Memo state of computeSetsMemoized after the successful first render. -/
def c7CacheC1 : Option (ComputeArgs × List ArmorSet) :=
  (renderLB c7Env c7Props c7StateOk none none).bind (fun r => r.cacheCompute)

/-- Memo state of filterSetsMemoized after the successful first render. -/
def c7CacheF1 : Option (FilterArgs × List ArmorSet) :=
  (renderLB c7Env c7Props c7StateOk none none).bind (fun r => r.cacheFilter)

/-- Memo state of computeSetsMemoized after the failing second render. -/
def c7CacheC2 : Option (ComputeArgs × List ArmorSet) :=
  (renderLB c7Env c7Props initialState c7CacheC1 c7CacheF1).bind
    (fun r => r.cacheCompute)

/-- Memo state of filterSetsMemoized after the failing second render. -/
def c7CacheF2 : Option (FilterArgs × List ArmorSet) :=
  (renderLB c7Env c7Props initialState c7CacheC1 c7CacheF1).bind
    (fun r => r.cacheFilter)

/-- C7 counterexample: after a successful render (`c7StateOk`) fills the
memo, a render with `initialState` invokes computeSets, which throws; a
further render with exactly the same props and state — every input unchanged
from the failing call — invokes computeSets again and fails again.  This
refutes the claim that after a failure the underlying functions are invoked
again only in a render where some input differs from the failing call's
inputs. -/
theorem c7_counterexample :
    (renderLB c7Env c7Props initialState c7CacheC1 c7CacheF1).map
        (fun r => r.view) = some (ContentsView.errorPanel "boom") ∧
    (renderLB c7Env c7Props initialState c7CacheC1 c7CacheF1).map
        (fun r => r.invokedCompute) = some true ∧
    (renderLB c7Env c7Props initialState c7CacheC2 c7CacheF2).map
        (fun r => r.invokedCompute) = some true ∧
    (renderLB c7Env c7Props initialState c7CacheC2 c7CacheF2).map
        (fun r => r.view) = some (ContentsView.errorPanel "boom") :=
  ⟨rfl, rfl, rfl, rfl⟩

theorem c7_amended_witness :
    (renderLB c7Env c7Props initialState none none).map (fun r => r.view) =
      some (ContentsView.errorPanel "boom") ∧
    (renderLB c7Env c7Props initialState none none).map
      (fun r => r.invokedCompute) = some true := by
  obtain ⟨res, hr, hv, -, -, hi, -⟩ :=
    c7_amended_retry_on_unchanged_inputs c7Env c7Props initialState none none
      c7Store { message := "boom" } rfl rfl rfl rfl rfl
  rw [hr]
  simp [hv, hi]

/-! Stores stream subscription handler, claim C3. -/

/-- C3: when a non-null snapshot arrives while a character is already
selected, the handler re-selects the snapshot's store carrying the previous
selection's id and leaves every other state field unchanged. -/
theorem c3_snapshot_reconciliation (props stores : List DimStore) (s : BState)
    (prev : DimStore) (hsel : s.selectedStore = some prev)
    (hex : ∃ t ∈ stores, t.id = prev.id) :
    ∃ s' t, storesStreamHandler props s (some stores) = some s' ∧
      s'.selectedStore = some t ∧ t.id = prev.id ∧ t ∈ stores ∧
      s'.lockedMap = s.lockedMap ∧ s'.statFilters = s.statFilters ∧
      s'.minimumPower = s.minimumPower ∧ s'.requirePerks = s.requirePerks ∧
      s'.query = s.query ∧ s'.statOrder = s.statOrder := by
  obtain ⟨t0, ht0, hid0⟩ := hex
  have hsome : (stores.find? (fun u => u.id == prev.id)).isSome := by
    rw [List.find?_isSome]
    exact ⟨t0, ht0, by simp [hid0]⟩
  obtain ⟨t, ht⟩ := Option.isSome_iff_exists.mp hsome
  refine ⟨{ s with selectedStore := stores.find? (fun u => u.id == prev.id) },
    t, ?_, ht, ?_, List.mem_of_find?_eq_some ht, rfl, rfl, rfl, rfl, rfl, rfl⟩
  · simp [storesStreamHandler, hsel]
  · simpa using List.find?_some ht

/-- Witness scenario, previously selected store for C3. -/
def c3Prev : DimStore := ⟨"a", false, DestinyClass.titan, []⟩

/-- Witness scenario, the same character in a fresh snapshot for C3. -/
def c3New : DimStore := ⟨"a", true, DestinyClass.warlock, []⟩

/-- Witness scenario, component state with a selection for C3. -/
def c3State : BState := { initialState with selectedStore := some c3Prev }

theorem c3_witness :
    (storesStreamHandler [] c3State (some [c3New])).isSome = true ∧
    (storesStreamHandler [] c3State (some [c3New])).map (fun s => s.query) =
      some "" := by
  obtain ⟨s', t, heq, -, -, -, -, -, -, -, hq, -⟩ :=
    c3_snapshot_reconciliation [] [c3New] c3State c3Prev rfl
      ⟨c3New, by decide, rfl⟩
  rw [heq]
  refine ⟨rfl, ?_⟩
  simp [hq, c3State, initialState]

end DIM
